import Mathlib

/-!
# nola-transit-map: server lifecycle and websocket hand-off (`server.go`)

A shallow embedding of `Server.Start` and `Server.newWebSocketHandler`.

* Go `error` values are a tree of wrapped errors, inspected by `errors.Is`
  and `websocket.CloseStatus`.
* Go contexts are a tree with cancellation identities and deadlines.
* A function body is a program over the operations it performs on its
  collaborators (router, logger, channel, HTTP server, websocket library,
  subscriber).  Deferred calls are kept on a per-call stack and run last-in
  first-out when the body returns or panics.
* Two interpreters run such programs: a sequential one, in which the
  environment answers every blocking call, and a two-task one, in which the
  controller task and the serve task interleave under a schedule.
-/

namespace NolaTransit

/-! ## Go error values -/

/-- A non-nil Go `error` value, as far as `errors.Is` and `errors.As` can tell. -/
inductive GoErr where
  /-- The sentinel `context.Canceled`. -/
  | canceled
  /-- The sentinel `context.DeadlineExceeded`. -/
  | deadlineExceeded
  /-- The sentinel `http.ErrServerClosed`. -/
  | serverClosed
  /-- A `websocket.CloseError` value with its status code and reason. -/
  | closeError (code : Int) (reason : String)
  /-- An error that wraps nothing, such as `errors.New(msg)`. -/
  | plain (msg : String)
  /-- An error with `Unwrap() error`, such as `fmt.Errorf("msg: %w", inner)`. -/
  | wrap (msg : String) (inner : GoErr)
  /-- An error with `Unwrap() []error`, such as `errors.Join(errs...)`. -/
  | join (errs : List GoErr)

/-- A Go `error` interface value; `none` is `nil`. -/
abbrev GoError := Option GoErr

mutual
/-- The chain walk of `errors.Is(err, context.Canceled)` on a non-nil error. -/
def GoErr.isCanceled : GoErr → Bool
  | .canceled => true
  | .wrap _ inner => GoErr.isCanceled inner
  | .join errs => GoErr.anyCanceled errs
  | _ => false
/-- The walk of `errors.Is` over the list returned by `Unwrap() []error`. -/
def GoErr.anyCanceled : List GoErr → Bool
  | [] => false
  | e :: es => GoErr.isCanceled e || GoErr.anyCanceled es
end

mutual
/-- The chain walk of `errors.As(err, &ce)` for `ce` a `websocket.CloseError`:
the status code of the first close error met, depth first. -/
def GoErr.asCloseError : GoErr → Option Int
  | .closeError code _ => some code
  | .wrap _ inner => GoErr.asCloseError inner
  | .join errs => GoErr.firstCloseError errs
  | _ => none
/-- The walk of `errors.As` over the list returned by `Unwrap() []error`. -/
def GoErr.firstCloseError : List GoErr → Option Int
  | [] => none
  | e :: es =>
    match GoErr.asCloseError e with
    | some code => some code
    | none => GoErr.firstCloseError es
end

/-- The call `errors.Is(err, context.Canceled)`; false on a nil error. -/
def errorsIsCanceled : GoError → Bool
  | none => false
  | some e => e.isCanceled

/-- The call `websocket.CloseStatus(err)`: the code of the wrapped close error,
and `-1` when there is none (in particular on a nil error). -/
def CloseStatus : GoError → Int
  | none => -1
  | some e =>
    match e.asCloseError with
    | some code => code
    | none => -1

/-- The constant `websocket.StatusNormalClosure`. -/
def StatusNormalClosure : Int := 1000
/-- The constant `websocket.StatusGoingAway`. -/
def StatusGoingAway : Int := 1001
/-- The constant `websocket.StatusInternalError`. -/
def StatusInternalError : Int := 1011

/-- The constant `time.Second`, in nanoseconds. -/
def Second : Nat := 1000000000

/-! ## Go contexts -/

/-- A `context.Context` value: the background context, or a child made by
`WithCancel` or `WithTimeout`, which carries the identity of its cancel
function. -/
inductive Ctx where
  | background
  | withCancel (parent : Ctx) (id : Nat)
  | withDeadline (parent : Ctx) (id : Nat) (deadline : Nat)

/-- The state all contexts share: the clock (ns), the cancel functions called
so far, and the next unused identity. -/
structure CtxWorld where
  now : Nat
  cancelled : List Nat
  nextId : Nat

/-- Whether `ctx.Done()` is closed: the context or one of its ancestors was
cancelled, or a deadline on the way to the root has passed. -/
def ctxDone (w : CtxWorld) : Ctx → Bool
  | .background => false
  | .withCancel p id => w.cancelled.contains id || ctxDone w p
  | .withDeadline p id d => w.cancelled.contains id || decide (d ≤ w.now) || ctxDone w p

/-- The cancel identities on the way from a context to the root. -/
def Ctx.ids : Ctx → List Nat
  | .background => []
  | .withCancel p id => id :: p.ids
  | .withDeadline p id _ => id :: p.ids

/-- Calling the cancel function of a context (nothing to call on the
background context). -/
def cancelCtx (w : CtxWorld) : Ctx → CtxWorld
  | .background => w
  | .withCancel _ id => { w with cancelled := id :: w.cancelled }
  | .withDeadline _ id _ => { w with cancelled := id :: w.cancelled }

/-- Every identity in use was handed out by the allocator. -/
def CtxWorld.knows (w : CtxWorld) (c : Ctx) : Bool :=
  w.cancelled.all (fun i => decide (i < w.nextId)) && c.ids.all (fun i => decide (i < w.nextId))

/-! ## The server value and its collaborators -/

structure ServerConfig where
  Addr : String
  Timeout : Nat

/-- The dynamic type of the value stored in the `Log` interface field. -/
inductive LogImpl where
  /-- A `*log.Logger`. -/
  | stdLogger
  /-- Any other type with a `Printf` method. -/
  | custom (typeName : String)

/-- The `Server` struct.  `Subscriber` and `Mux` are collaborators: calls on
them are operations of the program. -/
structure Server where
  Config : ServerConfig
  Log : LogImpl

/-- The three handlers `Start` installs on the router. -/
inductive Handler where
  | serveIndexFile
  | stripPrefixFileServer
  | webSocketHandler

/-- The `http.Server` value built by `Start`. -/
structure HttpServer where
  Addr : String
  ReadTimeout : Nat
  WriteTimeout : Nat
  ErrorLog : LogImpl
  BaseContext : Ctx

/-- An accepted websocket connection. -/
abbrev Conn := Nat

/-- An inbound request; `ctx` is `r.Context()`. -/
structure Request where
  ctx : Ctx

/-- The calls that the source defers. -/
inductive Call where
  /-- The call `close(errc)`. -/
  | closeChan
  /-- The call `cancel()` of the context made by `WithTimeout`. -/
  | cancel (id : Nat)
  /-- The call `conn.Close(code, reason)`. -/
  | connClose (conn : Conn) (code : Int) (reason : String)

/-- What the `select` in `Start` yields. -/
inductive RaceResult where
  /-- The case `err := <-errc`. -/
  | recv (err : GoError)
  /-- The case `<-ctx.Done()`. -/
  | done

/-- The operations a function body performs on its collaborators. -/
inductive Op where
  | muxHandle (pattern : String) (h : Handler)
  | logPrintf (format : String) (args : List GoError)
  | makeChan (capacity : Nat)
  | deferCall (c : Call)
  | goServe (srv : HttpServer)
  | selectRace (ctx : Ctx)
  | withTimeout (parent : Ctx) (d : Nat)
  | shutdown (srv : HttpServer) (ctx : Ctx)
  | listenAndServe (srv : HttpServer)
  | chanSend (e : GoError)
  | wsAccept (r : Request)
  | subscribe (ctx : Ctx) (conn : Conn)

/-- The type of the value an operation hands back. -/
def Op.Resp : Op → Type
  | .selectRace _ => RaceResult
  | .withTimeout _ _ => Ctx × Nat
  | .shutdown _ _ => GoError
  | .listenAndServe _ => GoError
  | .wsAccept _ => Except GoErr Conn
  | .subscribe _ _ => GoError
  | _ => Unit

/-- A function body: it returns, panics, or performs an operation and goes on
with the value handed back. -/
inductive Prog (α : Type) where
  | ret (a : α)
  | panic (msg : String)
  | op (o : Op) (k : o.Resp → Prog α)

/-- Sequencing of function bodies. -/
def Prog.bind {α β : Type} : Prog α → (α → Prog β) → Prog β
  | .ret a, f => f a
  | .panic msg, _ => .panic msg
  | .op o k, f => .op o (fun r => Prog.bind (k r) f)

instance : Monad Prog where
  pure := Prog.ret
  bind := Prog.bind

/-- Perform one operation and return what it hands back. -/
def perform (o : Op) : Prog o.Resp := .op o .ret

/-- The type assertion `s.Log.(*log.Logger)`: it panics unless the dynamic type
is `*log.Logger`. -/
def assertStdLogger : LogImpl → Prog LogImpl
  | .stdLogger => pure .stdLogger
  | .custom typeName =>
    .panic ("interface conversion: interface is " ++ typeName ++ ", not *log.Logger")

/-! ## The two functions of `server.go` -/

/-- The goroutine `go func() { errc <- server.ListenAndServe() }()`. -/
def serveTask (server : HttpServer) : Prog Unit := do
  let err ← perform (.listenAndServe server)
  perform (.chanSend err)

/-- The method `Server.Start`. -/
def Start (s : Server) (ctx : Ctx) : Prog GoError := do
  perform (.muxHandle "/" .serveIndexFile)
  perform (.muxHandle "/public/" .stripPrefixFileServer)
  perform (.muxHandle "/ws" .webSocketHandler)
  perform (.logPrintf "INFO: starting server" [])
  let errorLog ← assertStdLogger s.Log
  let server : HttpServer :=
    { Addr := s.Config.Addr
      ReadTimeout := s.Config.Timeout
      WriteTimeout := s.Config.Timeout
      ErrorLog := errorLog
      BaseContext := ctx }
  perform (.makeChan 1)
  perform (.deferCall .closeChan)
  perform (.goServe server)
  let r ← perform (.selectRace ctx)
  match r with
  | .recv err => perform (.logPrintf "ERROR: server failed: %s" [err])
  | .done => pure ()
  perform (.logPrintf "INFO: shutting server down" [])
  let (ctx, cancel) ← perform (.withTimeout .background (10 * Second))
  perform (.deferCall (.cancel cancel))
  perform (.shutdown server ctx)

/-- The handler returned by `Server.newWebSocketHandler`, applied to a request. -/
def newWebSocketHandler (_s : Server) (r : Request) : Prog Unit := do
  let accepted ← perform (.wsAccept r)
  match accepted with
  | .error err => perform (.logPrintf "websocket upgrade failed: %s" [some err])
  | .ok conn =>
    perform (.deferCall (.connClose conn StatusInternalError ""))
    let err ← perform (.subscribe r.ctx conn)
    if errorsIsCanceled err ||
        CloseStatus err == StatusNormalClosure ||
        CloseStatus err == StatusGoingAway then
      perform (.logPrintf "INFO: websocket subscriber disconnected: %s" [err])
    else if err.isSome then
      perform (.logPrintf "ERROR: websocket subscriber failed: %s" [err])
    else
      pure ()

/-! ## Sequential interpreter: the environment answers every blocking call -/

/-- What a run leaves behind for an observer, in order. -/
inductive Event where
  | handle (pattern : String) (h : Handler)
  | printf (format : String) (args : List GoError)
  | makeChan (capacity : Nat)
  | spawnServe (srv : HttpServer)
  | raceResolved (r : RaceResult)
  | newTimeoutCtx (ctx : Ctx)
  | shutdown (srv : HttpServer) (ctx : Ctx) (ctxDoneAtCall : Bool)
  | listenAndServe (srv : HttpServer)
  | send (e : GoError)
  | accept (r : Request)
  | subscribe (ctx : Ctx) (conn : Conn)
  | call (c : Call)

/-- How a call ends. -/
inductive Outcome (α : Type) where
  | returned (a : α)
  | panicked (msg : String)

/-- The answers of the environment to the blocking calls of one run. -/
structure Env where
  /-- The context world when the function is entered. -/
  world0 : CtxWorld
  /-- What `server.ListenAndServe()` returns to the serve task. -/
  serveResult : GoError
  /-- Whether the serve task reports before the parent context is done. -/
  serveFirst : Bool
  /-- The context world at the moment the `select` returns. -/
  worldAtRace : CtxWorld
  /-- What `server.Shutdown(ctx)` returns. -/
  shutdownResult : GoError
  /-- How long `server.Shutdown(ctx)` blocks, in nanoseconds. -/
  shutdownElapsed : Nat
  /-- What `websocket.Accept(w, r, nil)` returns. -/
  acceptResult : Except GoErr Conn
  /-- How `s.Subscriber.Subscribe(ctx, conn)` ends. -/
  subscribeResult : Outcome GoError

/-- The state of one call: the context world, the events so far, and the
stack of deferred calls (last deferred first). -/
structure SeqState where
  world : CtxWorld
  trace : List Event
  defers : List Call

/-- Append one event. -/
def SeqState.emit (st : SeqState) (e : Event) : SeqState :=
  { st with trace := st.trace ++ [e] }

/-- The call `context.WithTimeout(parent, d)`: a child with a fresh cancel
identity and the deadline `now + d`. -/
def withTimeout (w : CtxWorld) (parent : Ctx) (d : Nat) : (Ctx × Nat) × CtxWorld :=
  ((.withDeadline parent w.nextId (w.now + d), w.nextId), { w with nextId := w.nextId + 1 })

/-- Run a call that was deferred or made directly. -/
def runCall (c : Call) (st : SeqState) : SeqState :=
  match c with
  | .cancel id =>
    { st with world := { st.world with cancelled := id :: st.world.cancelled },
              trace := st.trace ++ [.call c] }
  | _ => st.emit (.call c)

/-- One operation, answered by the environment. -/
def answer (env : Env) (o : Op) (st : SeqState) : Outcome o.Resp × SeqState :=
  match o with
  | .muxHandle pattern h => (.returned (), st.emit (.handle pattern h))
  | .logPrintf format args => (.returned (), st.emit (.printf format args))
  | .makeChan capacity => (.returned (), st.emit (.makeChan capacity))
  | .deferCall c => (.returned (), { st with defers := c :: st.defers })
  | .goServe srv => (.returned (), st.emit (.spawnServe srv))
  | .selectRace _ =>
    let r : RaceResult := if env.serveFirst then .recv env.serveResult else .done
    (.returned r, { st with world := env.worldAtRace, trace := st.trace ++ [.raceResolved r] })
  | .withTimeout parent d =>
    let made := withTimeout st.world parent d
    (.returned made.1, { st with world := made.2, trace := st.trace ++ [.newTimeoutCtx made.1.1] })
  | .shutdown srv ctx =>
    (.returned env.shutdownResult,
      { st with world := { st.world with now := st.world.now + env.shutdownElapsed },
                trace := st.trace ++ [.shutdown srv ctx (ctxDone st.world ctx)] })
  | .listenAndServe srv => (.returned env.serveResult, st.emit (.listenAndServe srv))
  | .chanSend e => (.returned (), st.emit (.send e))
  | .wsAccept r => (.returned env.acceptResult, st.emit (.accept r))
  | .subscribe ctx conn =>
    match env.subscribeResult with
    | .returned e => (.returned e, st.emit (.subscribe ctx conn))
    | .panicked msg => (.panicked msg, st.emit (.subscribe ctx conn))

/-- Run a body until it returns or panics. -/
def exec {α : Type} (env : Env) : Prog α → SeqState → Outcome α × SeqState
  | .ret a, st => (.returned a, st)
  | .panic msg, st => (.panicked msg, st)
  | .op o k, st =>
    match answer env o st with
    | (.returned r, st1) => exec env (k r) st1
    | (.panicked msg, st1) => (.panicked msg, st1)

/-- Run the deferred calls, last deferred first. -/
def runDefers : List Call → SeqState → SeqState
  | [], st => st
  | c :: cs, st => runDefers cs (runCall c st)

/-- A function call: run the body with an empty defer stack, then run what it
deferred, whether it returned or panicked. -/
def callFunc {α : Type} (env : Env) (body : Prog α) : Outcome α × SeqState :=
  let r := exec env body { world := env.world0, trace := [], defers := [] }
  (r.1, runDefers r.2.defers { r.2 with defers := [] })

/-- One call of `Server.Start`. -/
def runStart (env : Env) (s : Server) (ctx : Ctx) : Outcome GoError × SeqState :=
  callFunc env (Start s ctx)

/-- One call of the upgrade handler. -/
def runHandler (env : Env) (s : Server) (r : Request) : Outcome Unit × SeqState :=
  callFunc env (newWebSocketHandler s r)

/-! ## Observations on a trace -/

def Event.isShutdown : Event → Bool
  | .shutdown _ _ _ => true
  | _ => false

def Event.isRaceResolved : Event → Bool
  | .raceResolved _ => true
  | _ => false

def Event.isPrintf : Event → Bool
  | .printf _ _ => true
  | _ => false

def Event.isSubscribe : Event → Bool
  | .subscribe _ _ => true
  | _ => false

def Event.isConnClose : Event → Bool
  | .call (.connClose _ _ _) => true
  | _ => false

def Event.isSpawnServe : Event → Bool
  | .spawnServe _ => true
  | _ => false

def Event.isListenAndServe : Event → Bool
  | .listenAndServe _ => true
  | _ => false

def Event.isHandle : Event → Bool
  | .handle _ _ => true
  | _ => false

/-- The log lines of a trace, in order. -/
def logLines (tr : List Event) : List Event := tr.filter Event.isPrintf

/-- Every event satisfying `q` comes after some event satisfying `p`. -/
def onlyAfter (p q : Event → Bool) : List Event → Bool
  | [] => true
  | e :: es => if p e then true else !q e && onlyAfter p q es


/-! ## Two-task interpreter: the controller and the serve task interleave -/

/-- The channel `errc`. -/
structure Chan where
  capacity : Nat
  buf : List GoError
  closed : Bool

/-- A goroutine: what is left of its body, the calls it deferred, and how it
ended once it has. -/
structure Task (α : Type) where
  prog : Prog α
  defers : List Call
  result : Option (Outcome α)

/-- What the environment decides when a task performs an operation. -/
inductive Answer where
  /-- Nothing to decide. -/
  | unit
  /-- The error a blocking library call returns now. -/
  | err (e : GoError)
  /-- The `select` takes the case `err := <-errc`. -/
  | pickRecv
  /-- The `select` takes the case `<-ctx.Done()`. -/
  | pickDone

/-- One move of a schedule. -/
inductive Move where
  /-- The controller task (the caller of `Start`) moves. -/
  | ctrl (a : Answer)
  /-- The serve task moves. -/
  | serve (a : Answer)
  /-- Somebody outside calls the cancel function with this identity. -/
  | cancel (id : Nat)
  /-- Time passes. -/
  | tick (d : Nat)

/-- The state of the two tasks and of what they share. -/
structure ConcState where
  world : CtxWorld
  errc : Option Chan
  shutdownCalled : Bool
  ctrl : Task GoError
  serve : Option (Task Unit)
  trace : List Event

/-- Append one event. -/
def ConcState.emit (st : ConcState) (e : Event) : ConcState :=
  { st with trace := st.trace ++ [e] }

/-- Whether `server.ListenAndServe()` may return this error now: it always
returns a non-nil error, and `http.ErrServerClosed` only once `Shutdown` has
been called. -/
def mayServeReturn (shutdownCalled : Bool) : GoError → Bool
  | none => false
  | some .serverClosed => shutdownCalled
  | some _ => true

/-- One operation of a task.  The result is `none` when the operation cannot
move now (it blocks, or the answer does not fit). -/
def stepOp (o : Op) (a : Answer) (st : ConcState) : Option (Outcome o.Resp × ConcState) :=
  match o with
  | .muxHandle pattern h => some (.returned (), st.emit (.handle pattern h))
  | .logPrintf format args => some (.returned (), st.emit (.printf format args))
  | .makeChan capacity =>
    some (.returned (),
      { st with errc := some { capacity := capacity, buf := [], closed := false },
                trace := st.trace ++ [.makeChan capacity] })
  | .deferCall _ => none
  | .goServe srv =>
    some (.returned (),
      { st with serve := some { prog := serveTask srv, defers := [], result := none },
                trace := st.trace ++ [.spawnServe srv] })
  | .selectRace ctx =>
    match a with
    | .pickRecv =>
      match st.errc with
      | some ch =>
        match ch.buf with
        | e :: rest =>
          some (.returned (.recv e),
            { st with errc := some { ch with buf := rest },
                      trace := st.trace ++ [.raceResolved (.recv e)] })
        | [] =>
          if ch.closed then
            some (.returned (.recv none), st.emit (.raceResolved (.recv none)))
          else none
      | none => none
    | .pickDone =>
      if ctxDone st.world ctx then some (.returned .done, st.emit (.raceResolved .done))
      else none
    | _ => none
  | .withTimeout parent d =>
    let made := withTimeout st.world parent d
    some (.returned made.1,
      { st with world := made.2, trace := st.trace ++ [.newTimeoutCtx made.1.1] })
  | .shutdown srv ctx =>
    match a with
    | .err e =>
      some (.returned e,
        { st with shutdownCalled := true,
                  trace := st.trace ++ [.shutdown srv ctx (ctxDone st.world ctx)] })
    | _ => none
  | .listenAndServe srv =>
    match a with
    | .err e =>
      if mayServeReturn st.shutdownCalled e then
        some (.returned e, st.emit (.listenAndServe srv))
      else none
    | _ => none
  | .chanSend e =>
    match st.errc with
    | none => none
    | some ch =>
      if ch.closed then some (.panicked "send on closed channel", st)
      else if ch.buf.length < ch.capacity then
        some (.returned (), { st with errc := some { ch with buf := ch.buf ++ [e] },
                                      trace := st.trace ++ [.send e] })
      else none
  | .wsAccept _ => none
  | .subscribe _ _ => none

/-- One call, made directly or when the deferred calls run.  A `close` of a
closed channel panics. -/
def stepCall (c : Call) (st : ConcState) : Outcome Unit × ConcState :=
  match c with
  | .closeChan =>
    match st.errc with
    | some ch =>
      if ch.closed then (.panicked "close of closed channel", st)
      else (.returned (), { st with errc := some { ch with closed := true },
                                    trace := st.trace ++ [.call c] })
    | none => (.panicked "close of nil channel", st)
  | .cancel id =>
    (.returned (), { st with world := { st.world with cancelled := id :: st.world.cancelled },
                             trace := st.trace ++ [.call c] })
  | .connClose _ _ _ => (.returned (), st.emit (.call c))

/-- One move of one task: the next operation of its body, or, once the body
has returned or panicked, the next deferred call, or the end of the task. -/
def stepTask {α : Type} (a : Answer) (t : Task α) (st : ConcState) :
    Option (Task α × ConcState) :=
  match t.result with
  | some _ => none
  | none =>
    match t.prog with
    | .ret v =>
      match t.defers with
      | [] => some ({ t with result := some (.returned v) }, st)
      | c :: cs =>
        match stepCall c st with
        | (.returned _, st1) => some ({ t with defers := cs }, st1)
        | (.panicked msg, st1) => some ({ t with prog := .panic msg, defers := cs }, st1)
    | .panic msg =>
      match t.defers with
      | [] => some ({ t with result := some (.panicked msg) }, st)
      | c :: cs =>
        match stepCall c st with
        | (.returned _, st1) => some ({ t with defers := cs }, st1)
        | (.panicked msg1, st1) => some ({ t with prog := .panic msg1, defers := cs }, st1)
    | .op (.deferCall c) k => some ({ t with prog := k (), defers := c :: t.defers }, st)
    | .op o k =>
      match stepOp o a st with
      | none => none
      | some (.returned r, st1) => some ({ t with prog := k r }, st1)
      | some (.panicked msg, st1) => some ({ t with prog := .panic msg }, st1)

/-- One move of the system; `none` when the move is not possible. -/
def step (m : Move) (st : ConcState) : Option ConcState :=
  match m with
  | .ctrl a =>
    match stepTask a st.ctrl st with
    | some (t, st1) => some { st1 with ctrl := t }
    | none => none
  | .serve a =>
    match st.serve with
    | some t0 =>
      match stepTask a t0 st with
      | some (t, st1) => some { st1 with serve := some t }
      | none => none
    | none => none
  | .cancel id =>
    some { st with world := { st.world with cancelled := id :: st.world.cancelled } }
  | .tick d => some { st with world := { st.world with now := st.world.now + d } }

/-- Run a schedule from a state. -/
def runSchedule : List Move → ConcState → Option ConcState
  | [], st => some st
  | m :: ms, st =>
    match step m st with
    | some st1 => runSchedule ms st1
    | none => none

/-- The system when `Start` is entered. -/
def startState (w : CtxWorld) (s : Server) (ctx : Ctx) : ConcState :=
  { world := w
    errc := none
    shutdownCalled := false
    ctrl := { prog := Start s ctx, defers := [], result := none }
    serve := none
    trace := [] }

/-- How the serve task ended, if it has. -/
def ConcState.serveResult (st : ConcState) : Option (Outcome Unit) :=
  match st.serve with
  | some t => t.result
  | none => none

def Event.isCloseChan : Event → Bool
  | .call .closeChan => true
  | _ => false

def Event.isSend : Event → Bool
  | .send _ => true
  | _ => false


/-! ## Concrete inputs -/

/-- A server whose `Log` holds a `*log.Logger`. -/
def demoServer : Server :=
  { Config := { Addr := ":8080", Timeout := 5 * Second }, Log := .stdLogger }

/-- A server whose `Log` holds some other type with a `Printf` method. -/
def customLogServer : Server :=
  { Config := { Addr := ":8080", Timeout := 5 * Second }, Log := .custom "*main.testLogger" }

/-- A cancellable parent context, made with identity `0`. -/
def demoParent : Ctx := .withCancel .background 0

/-- A world in which identity `0` is in use and nothing is cancelled. -/
def demoWorld : CtxWorld := { now := 0, cancelled := [], nextId := 1 }

/-- A run in which the listener fails to bind, so that the serve task reports
first, and the shutdown that follows has nothing to wait for. -/
def bindFailureEnv : Env :=
  { world0 := demoWorld
    serveResult := some (.wrap "listen tcp :8080" (.plain "bind: address already in use"))
    serveFirst := true
    worldAtRace := demoWorld
    shutdownResult := none
    shutdownElapsed := 0
    acceptResult := .ok 1
    subscribeResult := .returned none }

/-- A run in which the parent context is cancelled after seven seconds and the
shutdown runs into its deadline. -/
def cancelledEnv : Env :=
  { world0 := demoWorld
    serveResult := some .serverClosed
    serveFirst := false
    worldAtRace := { now := 7 * Second, cancelled := [0], nextId := 1 }
    shutdownResult := some .deadlineExceeded
    shutdownElapsed := 10 * Second
    acceptResult := .ok 1
    subscribeResult := .returned none }

/-- A request whose context is a child of the server's base context. -/
def demoRequest : Request := { ctx := .withCancel demoParent 5 }

/-- An environment for one handler call, given how `Accept` and `Subscribe` end. -/
def handlerEnv (accepted : Except GoErr Conn) (sub : Outcome GoError) : Env :=
  { bindFailureEnv with acceptResult := accepted, subscribeResult := sub }

/-- The schedule on which the parent context is cancelled while the server
runs, `Shutdown` returns at once, `Start` returns, and only then the serve
task gets to run. -/
def lateServeSchedule : List Move :=
  [ .ctrl .unit, .ctrl .unit, .ctrl .unit, .ctrl .unit,
    .ctrl .unit, .ctrl .unit, .ctrl .unit,
    .cancel 0,
    .ctrl .pickDone, .ctrl .unit, .ctrl .unit, .ctrl .unit,
    .ctrl (.err none),
    .ctrl .unit, .ctrl .unit, .ctrl .unit,
    .serve (.err (some .serverClosed)),
    .serve .unit, .serve .unit ]

/-- The schedule on which the listener fails to bind and the serve task has
sent its error before the controller reaches the `select`. -/
def earlyServeSchedule : List Move :=
  [ .ctrl .unit, .ctrl .unit, .ctrl .unit, .ctrl .unit,
    .ctrl .unit, .ctrl .unit, .ctrl .unit,
    .serve (.err (some (.plain "bind: address already in use"))),
    .serve .unit, .serve .unit,
    .ctrl .pickRecv, .ctrl .unit, .ctrl .unit, .ctrl .unit, .ctrl .unit,
    .ctrl (.err none),
    .ctrl .unit, .ctrl .unit, .ctrl .unit ]

/-- A run in which the listener fails to bind and the serve task has sent its
error, the parent context is cancelled before the controller reaches the
`select`, and the `select`, with both cases ready, takes `<-ctx.Done()`. -/
def bindFailureThenCancelEnv : Env :=
  { bindFailureEnv with
    serveFirst := false
    worldAtRace := { now := 0, cancelled := [0], nextId := 1 } }

/-- The schedule of that run on the two tasks: the serve task sends its bind
error, then the parent is cancelled, then the `select` takes `<-ctx.Done()`. -/
def cancelAfterServeSchedule : List Move :=
  [ .ctrl .unit, .ctrl .unit, .ctrl .unit, .ctrl .unit,
    .ctrl .unit, .ctrl .unit, .ctrl .unit,
    .serve (.err (some (.plain "bind: address already in use"))),
    .serve .unit, .serve .unit,
    .cancel 0,
    .ctrl .pickDone, .ctrl .unit, .ctrl .unit, .ctrl .unit,
    .ctrl (.err none),
    .ctrl .unit, .ctrl .unit, .ctrl .unit ]

/-! ## Shared lemmas -/

/-- The `http.Server` value that `Start` builds when the type assertion holds. -/
def builtServer (s : Server) (ctx : Ctx) : HttpServer :=
  { Addr := s.Config.Addr
    ReadTimeout := s.Config.Timeout
    WriteTimeout := s.Config.Timeout
    ErrorLog := .stdLogger
    BaseContext := ctx }

/-- The context that `Start` makes for `Shutdown` when the race ends in world `w`. -/
def shutdownCtx (w : CtxWorld) : Ctx :=
  .withDeadline .background w.nextId (w.now + 10 * Second)

/-- The events of `Start` up to the `select`. -/
def startPrelude (s : Server) (ctx : Ctx) : List Event :=
  [ .handle "/" .serveIndexFile,
    .handle "/public/" .stripPrefixFileServer,
    .handle "/ws" .webSocketHandler,
    .printf "INFO: starting server" [],
    .makeChan 1,
    .spawnServe (builtServer s ctx) ]

/-- The events of `Start` from the shutdown log line on. -/
def startEpilogue (env : Env) (s : Server) (ctx : Ctx) : List Event :=
  [ .printf "INFO: shutting server down" [],
    .newTimeoutCtx (shutdownCtx env.worldAtRace),
    .shutdown (builtServer s ctx) (shutdownCtx env.worldAtRace)
      (ctxDone { env.worldAtRace with nextId := env.worldAtRace.nextId + 1 }
        (shutdownCtx env.worldAtRace)),
    .call (.cancel env.worldAtRace.nextId),
    .call .closeChan ]

theorem runStart_serveFirst (env : Env) (s : Server) (ctx : Ctx)
    (hlog : s.Log = .stdLogger) (hfirst : env.serveFirst = true) :
    (runStart env s ctx).1 = .returned env.shutdownResult ∧
    (runStart env s ctx).2.trace =
      startPrelude s ctx ++
        [.raceResolved (.recv env.serveResult),
         .printf "ERROR: server failed: %s" [env.serveResult]] ++
        startEpilogue env s ctx := by
  obtain ⟨cfg, log⟩ := s
  subst hlog
  obtain ⟨w0, sr, sf, wr, shr, she, ar, sub⟩ := env
  subst hfirst
  exact ⟨by rfl, by rfl⟩

theorem runStart_ctxFirst (env : Env) (s : Server) (ctx : Ctx)
    (hlog : s.Log = .stdLogger) (hfirst : env.serveFirst = false) :
    (runStart env s ctx).1 = .returned env.shutdownResult ∧
    (runStart env s ctx).2.trace =
      startPrelude s ctx ++ [.raceResolved .done] ++ startEpilogue env s ctx := by
  obtain ⟨cfg, log⟩ := s
  subst hlog
  obtain ⟨w0, sr, sf, wr, shr, she, ar, sub⟩ := env
  subst hfirst
  exact ⟨by rfl, by rfl⟩

theorem runStart_custom (env : Env) (s : Server) (ctx : Ctx) (typeName : String)
    (hlog : s.Log = .custom typeName) :
    (runStart env s ctx).1 =
      .panicked ("interface conversion: interface is " ++ typeName ++ ", not *log.Logger") ∧
    (runStart env s ctx).2.trace =
      [ .handle "/" .serveIndexFile,
        .handle "/public/" .stripPrefixFileServer,
        .handle "/ws" .webSocketHandler,
        .printf "INFO: starting server" [] ] := by
  obtain ⟨cfg, log⟩ := s
  subst hlog
  exact ⟨by rfl, by rfl⟩

/-- An identity the allocator has not handed out is not cancelled. -/
theorem fresh_not_cancelled (w : CtxWorld) (c : Ctx) (h : w.knows c = true) :
    w.cancelled.contains w.nextId = false ∧ w.nextId ∉ c.ids := by
  simp only [CtxWorld.knows, Bool.and_eq_true, List.all_eq_true, decide_eq_true_eq] at h
  constructor
  · rw [Bool.eq_false_iff]
    intro hc
    have hmem : w.nextId ∈ w.cancelled := by simpa using hc
    exact Nat.lt_irrefl _ (h.1 _ hmem)
  · intro hmem
    exact Nat.lt_irrefl _ (h.2 _ hmem)

/-- A context made from the background context is done only by its own cancel
function or its own deadline. -/
theorem ctxDone_background_child (w : CtxWorld) (id deadline : Nat)
    (hid : w.cancelled.contains id = false) (hnow : w.now < deadline) :
    ctxDone w (.withDeadline .background id deadline) = false := by
  simp only [ctxDone, hid, Bool.false_or, Bool.or_false, decide_eq_false_iff_not, Nat.not_le]
  exact hnow

theorem handler_returned (env : Env) (s : Server) (r : Request) (conn : Conn) (err : GoError)
    (hacc : env.acceptResult = .ok conn) (hsub : env.subscribeResult = .returned err) :
    runHandler env s r =
      (.returned (),
        { world := env.world0
          trace := [.accept r, .subscribe r.ctx conn] ++
            (if (errorsIsCanceled err || CloseStatus err == StatusNormalClosure ||
                  CloseStatus err == StatusGoingAway) = true then
              [.printf "INFO: websocket subscriber disconnected: %s" [err]]
            else if err.isSome = true then
              [.printf "ERROR: websocket subscriber failed: %s" [err]]
            else []) ++ [.call (.connClose conn StatusInternalError "")]
          defers := [] }) := by
  simp only [runHandler, callFunc, newWebSocketHandler, bind, Prog.bind, perform, exec, answer,
    hacc, hsub, SeqState.emit]
  split
  · simp [exec, answer, runDefers, runCall, SeqState.emit, Prog.bind]
  · split
    · simp [exec, answer, runDefers, runCall, SeqState.emit, Prog.bind]
    · simp [exec, answer, runDefers, runCall, SeqState.emit, Prog.bind, pure]

theorem handler_panicked (env : Env) (s : Server) (r : Request) (conn : Conn) (msg : String)
    (hacc : env.acceptResult = .ok conn) (hsub : env.subscribeResult = .panicked msg) :
    runHandler env s r =
      (.panicked msg,
        { world := env.world0
          trace := [.accept r, .subscribe r.ctx conn,
            .call (.connClose conn StatusInternalError "")]
          defers := [] }) := by
  simp [runHandler, callFunc, newWebSocketHandler, bind, Prog.bind, perform, exec, answer,
    hacc, hsub, SeqState.emit, runDefers, runCall]

theorem handler_rejected (env : Env) (s : Server) (r : Request) (e : GoErr)
    (hacc : env.acceptResult = .error e) :
    runHandler env s r =
      (.returned (),
        { world := env.world0
          trace := [.accept r, .printf "websocket upgrade failed: %s" [some e]]
          defers := [] }) := by
  simp [runHandler, callFunc, newWebSocketHandler, bind, Prog.bind, perform, exec, answer,
    hacc, SeqState.emit, runDefers, runCall]


/-- Once `Accept` has succeeded the handler's trace ends with the deferred
close, and what comes before holds no close and exactly one `Subscribe`. -/
theorem handler_accepted_shape (env : Env) (s : Server) (r : Request) (conn : Conn)
    (hacc : env.acceptResult = .ok conn) :
    ∃ before,
      (runHandler env s r).2.trace =
        before ++ [.call (.connClose conn StatusInternalError "")] ∧
      before.filter Event.isConnClose = [] ∧
      before.filter Event.isSubscribe = [.subscribe r.ctx conn] := by
  cases hsub : env.subscribeResult with
  | panicked msg =>
    rw [handler_panicked env s r conn msg hacc hsub]
    exact ⟨[.accept r, .subscribe r.ctx conn], by rfl, by rfl, by rfl⟩
  | returned err =>
    rw [handler_returned env s r conn err hacc hsub]
    by_cases h1 : (errorsIsCanceled err || CloseStatus err == StatusNormalClosure ||
        CloseStatus err == StatusGoingAway) = true
    · rw [if_pos h1]
      exact ⟨_, rfl, by rfl, by rfl⟩
    · rw [if_neg h1]
      by_cases h2 : err.isSome = true
      · rw [if_pos h2]
        exact ⟨_, rfl, by rfl, by rfl⟩
      · rw [if_neg h2]
        exact ⟨_, rfl, by rfl, by rfl⟩

/-- On the schedule where the serve task reports first, its send is received,
both tasks return, and `Start` returns the nil of `Shutdown`. -/
theorem early_serve_schedule_returns :
    (runSchedule earlyServeSchedule (startState demoWorld demoServer demoParent)).bind
        (fun st => st.ctrl.result) = some (.returned none) ∧
    (runSchedule earlyServeSchedule (startState demoWorld demoServer demoParent)).bind
        ConcState.serveResult = some (.returned ()) ∧
    (runSchedule earlyServeSchedule (startState demoWorld demoServer demoParent)).map
        (fun st => onlyAfter Event.isSend Event.isCloseChan st.trace) = some true :=
  ⟨by rfl, by rfl, by rfl⟩

/-- On the schedule where the serve task has sent its error, the parent is then
cancelled and the `select` takes `<-ctx.Done()`, the error is sent once and
never logged: the two log lines are the start and the shutdown line, and
`Start` returns the nil of `Shutdown`. -/
theorem cancel_after_serve_schedule_logs_no_error :
    (runSchedule cancelAfterServeSchedule (startState demoWorld demoServer demoParent)).bind
        (fun st => st.ctrl.result) = some (.returned none) ∧
    (runSchedule cancelAfterServeSchedule (startState demoWorld demoServer demoParent)).map
        (fun st => (st.trace.filter Event.isSend).length) = some 1 ∧
    (runSchedule cancelAfterServeSchedule (startState demoWorld demoServer demoParent)).map
        (fun st => logLines st.trace) =
      some [.printf "INFO: starting server" [], .printf "INFO: shutting server down" []] :=
  ⟨by rfl, by rfl, by rfl⟩

/-! ## Lifecycle controller: `Server.Start` -/

/-- C1 (as stated, refuted): the listener fails to bind, the serve task reports
the non-nil error before the parent context is cancelled, `Shutdown` has
nothing to wait for and returns nil, and `Start` returns nil. -/
theorem start_returns_nil_after_bind_failure :
    bindFailureEnv.serveFirst = true ∧
    bindFailureEnv.serveResult.isSome = true ∧
    (runStart bindFailureEnv demoServer demoParent).1 = .returned none ∧
    ¬ ∃ e, (runStart bindFailureEnv demoServer demoParent).1 = .returned (some e) := by
  refine ⟨rfl, rfl, by rfl, ?_⟩
  rintro ⟨e, he⟩
  have h : (runStart bindFailureEnv demoServer demoParent).1 = .returned none := by rfl
  rw [h] at he
  cases he

/-- C1 (amended): in every run in which `ListenAndServe` ends with a non-nil
error, whichever case the `select` then takes, `Start` returns exactly what
`Shutdown` returns, so a non-nil error exactly when `Shutdown` returns one.
The serve error is never the return value: when the `select` receives it from
`errc` it is logged with the one line `ERROR: server failed: <err>`, and when
the `select` takes `<-ctx.Done()` instead it is not logged at all. -/
theorem start_returns_shutdown_result_after_serve_error (env : Env) (s : Server) (ctx : Ctx)
    (e : GoErr) (hlog : s.Log = .stdLogger) (herr : env.serveResult = some e) :
    (runStart env s ctx).1 = .returned env.shutdownResult ∧
    ((∃ e2, (runStart env s ctx).1 = .returned (some e2)) ↔ env.shutdownResult.isSome = true) ∧
    (env.serveFirst = true →
      logLines (runStart env s ctx).2.trace =
        [ .printf "INFO: starting server" [],
          .printf "ERROR: server failed: %s" [some e],
          .printf "INFO: shutting server down" [] ]) ∧
    (env.serveFirst = false →
      logLines (runStart env s ctx).2.trace =
        [ .printf "INFO: starting server" [],
          .printf "INFO: shutting server down" [] ]) := by
  have hout : (runStart env s ctx).1 = .returned env.shutdownResult := by
    cases hfirst : env.serveFirst
    · exact (runStart_ctxFirst env s ctx hlog hfirst).1
    · exact (runStart_serveFirst env s ctx hlog hfirst).1
  refine ⟨hout, ?_, ?_, ?_⟩
  · rw [hout]
    constructor
    · rintro ⟨e2, h2⟩
      injection h2 with h3
      rw [h3]
      rfl
    · intro h
      obtain ⟨e2, h2⟩ := Option.isSome_iff_exists.mp h
      exact ⟨e2, by rw [h2]⟩
  · intro hfirst
    rw [(runStart_serveFirst env s ctx hlog hfirst).2, herr]
    rfl
  · intro hfirst
    rw [(runStart_ctxFirst env s ctx hlog hfirst).2]
    rfl

theorem start_returns_shutdown_result_after_serve_error_witness :
    demoServer.Log = .stdLogger ∧
    bindFailureEnv.serveResult =
      some (.wrap "listen tcp :8080" (.plain "bind: address already in use")) ∧
    bindFailureThenCancelEnv.serveResult =
      some (.wrap "listen tcp :8080" (.plain "bind: address already in use")) ∧
    bindFailureEnv.serveFirst = true ∧
    bindFailureThenCancelEnv.serveFirst = false ∧
    (runStart bindFailureEnv demoServer demoParent).1 = .returned none ∧
    logLines (runStart bindFailureEnv demoServer demoParent).2.trace =
      [ .printf "INFO: starting server" [],
        .printf "ERROR: server failed: %s"
          [some (.wrap "listen tcp :8080" (.plain "bind: address already in use"))],
        .printf "INFO: shutting server down" [] ] ∧
    (runStart bindFailureThenCancelEnv demoServer demoParent).1 = .returned none ∧
    logLines (runStart bindFailureThenCancelEnv demoServer demoParent).2.trace =
      [ .printf "INFO: starting server" [],
        .printf "INFO: shutting server down" [] ] :=
  ⟨rfl, rfl, rfl, rfl, rfl,
    (start_returns_shutdown_result_after_serve_error bindFailureEnv demoServer demoParent
      (.wrap "listen tcp :8080" (.plain "bind: address already in use")) rfl rfl).1,
    (start_returns_shutdown_result_after_serve_error bindFailureEnv demoServer demoParent
      (.wrap "listen tcp :8080" (.plain "bind: address already in use")) rfl rfl).2.2.1 rfl,
    (start_returns_shutdown_result_after_serve_error bindFailureThenCancelEnv demoServer
      demoParent (.wrap "listen tcp :8080" (.plain "bind: address already in use"))
      rfl rfl).1,
    (start_returns_shutdown_result_after_serve_error bindFailureThenCancelEnv demoServer
      demoParent (.wrap "listen tcp :8080" (.plain "bind: address already in use"))
      rfl rfl).2.2.2 rfl⟩

/-- C2: whichever side wins the race, `Start` calls `Shutdown` exactly once,
after the one event that resolves the race, and returns the value that call
returned; an error received from the serve task is logged and is not what
`Start` returns. -/
theorem start_shuts_down_once_and_returns_its_result (env : Env) (s : Server) (ctx : Ctx)
    (hlog : s.Log = .stdLogger) :
    (runStart env s ctx).1 = .returned env.shutdownResult ∧
    ((runStart env s ctx).2.trace.filter Event.isShutdown).length = 1 ∧
    ((runStart env s ctx).2.trace.filter Event.isRaceResolved).length = 1 ∧
    onlyAfter Event.isRaceResolved Event.isShutdown (runStart env s ctx).2.trace = true ∧
    (env.serveFirst = true →
      Event.printf "ERROR: server failed: %s" [env.serveResult] ∈
        (runStart env s ctx).2.trace) := by
  cases hfirst : env.serveFirst
  · obtain ⟨hout, htr⟩ := runStart_ctxFirst env s ctx hlog hfirst
    rw [htr]
    refine ⟨hout, by rfl, by rfl, by rfl, ?_⟩
    intro h
    cases h
  · obtain ⟨hout, htr⟩ := runStart_serveFirst env s ctx hlog hfirst
    rw [htr]
    refine ⟨hout, by rfl, by rfl, by rfl, ?_⟩
    intro _
    simp

theorem start_shuts_down_once_and_returns_its_result_witness :
    demoServer.Log = .stdLogger ∧
    (runStart cancelledEnv demoServer demoParent).1 = .returned (some .deadlineExceeded) ∧
    ((runStart cancelledEnv demoServer demoParent).2.trace.filter Event.isShutdown).length = 1 :=
  ⟨rfl,
    (start_shuts_down_once_and_returns_its_result cancelledEnv demoServer demoParent rfl).1,
    (start_shuts_down_once_and_returns_its_result cancelledEnv demoServer demoParent rfl).2.1⟩

/-- C8: the context handed to `Shutdown` is a child of `context.Background()`
with deadline ten seconds (`10 * 10^9` ns) after the race ended, under a cancel
identity that is not one of the parent's; it is not done when `Shutdown` is
called, cancelling the parent never makes it done, and in any world it is done
only by its own cancel function or its own deadline. -/
theorem shutdown_ctx_is_fresh_background_child (env : Env) (s : Server) (ctx : Ctx)
    (hlog : s.Log = .stdLogger) (hknown : env.worldAtRace.knows ctx = true) :
    (runStart env s ctx).2.trace.filter Event.isShutdown =
      [.shutdown (builtServer s ctx)
        (.withDeadline .background env.worldAtRace.nextId
          (env.worldAtRace.now + 10 * 1000000000)) false] ∧
    env.worldAtRace.nextId ∉ ctx.ids ∧
    (∀ w : CtxWorld,
      ctxDone w (.withDeadline .background env.worldAtRace.nextId
          (env.worldAtRace.now + 10 * 1000000000)) = false →
      ctxDone (cancelCtx w ctx) (.withDeadline .background env.worldAtRace.nextId
          (env.worldAtRace.now + 10 * 1000000000)) = false) ∧
    (∀ w : CtxWorld, w.cancelled.contains env.worldAtRace.nextId = false →
      w.now < env.worldAtRace.now + 10 * 1000000000 →
      ctxDone w (.withDeadline .background env.worldAtRace.nextId
          (env.worldAtRace.now + 10 * 1000000000)) = false) := by
  obtain ⟨hfresh, hnot⟩ := fresh_not_cancelled env.worldAtRace ctx hknown
  have hcall : ctxDone { env.worldAtRace with nextId := env.worldAtRace.nextId + 1 }
      (shutdownCtx env.worldAtRace) = false :=
    ctxDone_background_child _ _ _ hfresh (by simp [Second])
  refine ⟨?_, hnot, ?_, ?_⟩
  · cases hfirst : env.serveFirst
    · rw [(runStart_ctxFirst env s ctx hlog hfirst).2]
      simp [startPrelude, startEpilogue, Event.isShutdown, hcall]
      rfl
    · rw [(runStart_serveFirst env s ctx hlog hfirst).2]
      simp [startPrelude, startEpilogue, Event.isShutdown, hcall]
      rfl
  · intro w hw
    cases ctx with
    | background => exact hw
    | withCancel p id =>
      have hne : env.worldAtRace.nextId ≠ id := by
        intro h
        exact hnot (by simp [Ctx.ids, h])
      simp [ctxDone, cancelCtx] at hw ⊢
      exact ⟨⟨fun h => hne h, hw.1⟩, hw.2⟩
    | withDeadline p id d =>
      have hne : env.worldAtRace.nextId ≠ id := by
        intro h
        exact hnot (by simp [Ctx.ids, h])
      simp [ctxDone, cancelCtx] at hw ⊢
      exact ⟨⟨fun h => hne h, hw.1⟩, hw.2⟩
  · intro w hid hnow
    exact ctxDone_background_child w _ _ hid hnow

theorem shutdown_ctx_is_fresh_background_child_witness :
    demoServer.Log = .stdLogger ∧ cancelledEnv.worldAtRace.knows demoParent = true ∧
    ctxDone cancelledEnv.worldAtRace demoParent = true ∧
    (runStart cancelledEnv demoServer demoParent).2.trace.filter Event.isShutdown =
      [.shutdown (builtServer demoServer demoParent)
        (.withDeadline .background 1 (7000000000 + 10 * 1000000000)) false] :=
  ⟨rfl, by decide, by decide,
    (shutdown_ctx_is_fresh_background_child cancelledEnv demoServer demoParent rfl
      (by decide)).1⟩

/-- C9 (the defect): on the schedule where the parent context is cancelled,
`Shutdown` returns at once and `Start` runs its deferred `close(errc)` before
the serve task has run, `Start` returns nil and the serve task then panics on
its send to the closed channel without having sent anything. -/
theorem serve_task_sends_on_closed_channel :
    (runSchedule lateServeSchedule (startState demoWorld demoServer demoParent)).bind
        (fun st => st.ctrl.result) = some (.returned none) ∧
    (runSchedule lateServeSchedule (startState demoWorld demoServer demoParent)).bind
        ConcState.serveResult = some (.panicked "send on closed channel") ∧
    (runSchedule lateServeSchedule (startState demoWorld demoServer demoParent)).map
        (fun st => (st.trace.filter Event.isCloseChan).length) = some 1 ∧
    (runSchedule lateServeSchedule (startState demoWorld demoServer demoParent)).map
        (fun st => (st.trace.filter Event.isSend).length) = some 0 :=
  ⟨by rfl, by rfl, by rfl, by rfl⟩

/-- C10: when the `Log` field holds anything but a `*log.Logger`, `Start`
panics at the type assertion: the three routes are registered and
`INFO: starting server` is logged, and nothing else happens: no channel, no
serve task, no `ListenAndServe`, no `Shutdown`, and no value is returned. -/
theorem start_panics_without_std_logger (env : Env) (s : Server) (ctx : Ctx)
    (typeName : String) (hlog : s.Log = .custom typeName) :
    (∃ msg, (runStart env s ctx).1 = .panicked msg) ∧
    (∀ v, (runStart env s ctx).1 ≠ .returned v) ∧
    (runStart env s ctx).2.trace =
      [ .handle "/" .serveIndexFile,
        .handle "/public/" .stripPrefixFileServer,
        .handle "/ws" .webSocketHandler,
        .printf "INFO: starting server" [] ] ∧
    (runStart env s ctx).2.trace.filter Event.isSpawnServe = [] ∧
    (runStart env s ctx).2.trace.filter Event.isListenAndServe = [] ∧
    (runStart env s ctx).2.trace.filter Event.isShutdown = [] := by
  obtain ⟨hout, htr⟩ := runStart_custom env s ctx typeName hlog
  rw [hout, htr]
  refine ⟨⟨_, rfl⟩, ?_, rfl, by rfl, by rfl, by rfl⟩
  intro v h
  cases h

theorem start_panics_without_std_logger_witness :
    customLogServer.Log = .custom "*main.testLogger" ∧
    (runStart cancelledEnv customLogServer demoParent).2.trace.filter Event.isShutdown = [] ∧
    ∃ msg, (runStart cancelledEnv customLogServer demoParent).1 = .panicked msg :=
  ⟨rfl,
    (start_panics_without_std_logger cancelledEnv customLogServer demoParent
      "*main.testLogger" rfl).2.2.2.2.2,
    (start_panics_without_std_logger cancelledEnv customLogServer demoParent
      "*main.testLogger" rfl).1⟩


/-! ## Connection upgrade handler: `Server.newWebSocketHandler` -/

/-- C3: once `Accept` has succeeded, however `Subscribe` ends (it returns any
error value, nil included, or it panics), the handler calls
`conn.Close(StatusInternalError, "")` exactly once: it is the last thing the
call does, and the one `Subscribe` call comes before it. -/
theorem handler_closes_conn_exactly_once (env : Env) (s : Server) (r : Request) (conn : Conn)
    (hacc : env.acceptResult = .ok conn) :
    (runHandler env s r).2.trace.filter Event.isConnClose =
      [.call (.connClose conn StatusInternalError "")] ∧
    ∃ before,
      (runHandler env s r).2.trace =
        before ++ [.call (.connClose conn StatusInternalError "")] ∧
      before.filter Event.isConnClose = [] ∧
      before.filter Event.isSubscribe = [.subscribe r.ctx conn] := by
  obtain ⟨before, htr, hclose, hsub⟩ := handler_accepted_shape env s r conn hacc
  refine ⟨?_, before, htr, hclose, hsub⟩
  rw [htr, List.filter_append, hclose]
  rfl

theorem handler_closes_conn_exactly_once_witness :
    (handlerEnv (.ok 7) (.panicked "subscriber panicked")).acceptResult = .ok 7 ∧
    (runHandler (handlerEnv (.ok 7) (.panicked "subscriber panicked")) demoServer
        demoRequest).1 = .panicked "subscriber panicked" ∧
    (runHandler (handlerEnv (.ok 7) (.panicked "subscriber panicked")) demoServer
        demoRequest).2.trace.filter Event.isConnClose =
      [.call (.connClose 7 StatusInternalError "")] :=
  ⟨rfl, by rfl,
    (handler_closes_conn_exactly_once (handlerEnv (.ok 7) (.panicked "subscriber panicked"))
      demoServer demoRequest 7 rfl).1⟩

/-- C4: when the error returned by `Subscribe` is `context.Canceled` somewhere
in its chain, or carries close status normal closure (1000) or going away
(1001), the handler logs exactly one line, the line
`INFO: websocket subscriber disconnected: <err>`. -/
theorem disconnect_is_logged_as_info (env : Env) (s : Server) (r : Request) (conn : Conn)
    (err : GoError) (hacc : env.acceptResult = .ok conn)
    (hsub : env.subscribeResult = .returned err)
    (hcls : errorsIsCanceled err = true ∨ CloseStatus err = StatusNormalClosure ∨
      CloseStatus err = StatusGoingAway) :
    logLines (runHandler env s r).2.trace =
      [.printf "INFO: websocket subscriber disconnected: %s" [err]] := by
  have h1 : (errorsIsCanceled err || CloseStatus err == StatusNormalClosure ||
      CloseStatus err == StatusGoingAway) = true := by
    simp only [StatusNormalClosure, StatusGoingAway, Bool.or_eq_true, beq_iff_eq]
    rcases hcls with h | h | h
    · exact Or.inl (Or.inl h)
    · exact Or.inl (Or.inr h)
    · exact Or.inr h
  rw [handler_returned env s r conn err hacc hsub, if_pos h1]
  rfl

theorem disconnect_is_logged_as_info_witness :
    (handlerEnv (.ok 7)
      (.returned (some (.wrap "failed to read" (.closeError 1001 ""))))).acceptResult = .ok 7 ∧
    CloseStatus (some (.wrap "failed to read" (.closeError 1001 ""))) = StatusGoingAway ∧
    logLines (runHandler (handlerEnv (.ok 7)
        (.returned (some (.wrap "failed to read" (.closeError 1001 ""))))) demoServer
        demoRequest).2.trace =
      [.printf "INFO: websocket subscriber disconnected: %s"
        [some (.wrap "failed to read" (.closeError 1001 ""))]] :=
  ⟨rfl, by decide,
    disconnect_is_logged_as_info
      (handlerEnv (.ok 7) (.returned (some (.wrap "failed to read" (.closeError 1001 "")))))
      demoServer demoRequest 7 (some (.wrap "failed to read" (.closeError 1001 ""))) rfl rfl
      (Or.inr (Or.inr (by decide)))⟩

/-- C5: when `Subscribe` returns a non-nil error that is not `context.Canceled`
anywhere in its chain and whose close status is neither normal closure (1000)
nor going away (1001), the handler logs exactly one line, the line
`ERROR: websocket subscriber failed: <err>`. -/
theorem failure_is_logged_as_error (env : Env) (s : Server) (r : Request) (conn : Conn)
    (err : GoError) (hacc : env.acceptResult = .ok conn)
    (hsub : env.subscribeResult = .returned err) (hnil : err ≠ none)
    (hcan : errorsIsCanceled err = false) (hnormal : CloseStatus err ≠ StatusNormalClosure)
    (haway : CloseStatus err ≠ StatusGoingAway) :
    logLines (runHandler env s r).2.trace =
      [.printf "ERROR: websocket subscriber failed: %s" [err]] := by
  have h1 : ¬ (errorsIsCanceled err || CloseStatus err == StatusNormalClosure ||
      CloseStatus err == StatusGoingAway) = true := by
    simp only [StatusNormalClosure, StatusGoingAway, Bool.or_eq_true, beq_iff_eq, hcan]
    rintro ((h | h) | h)
    · cases h
    · exact hnormal h
    · exact haway h
  have h2 : err.isSome = true := Option.isSome_iff_ne_none.mpr hnil
  rw [handler_returned env s r conn err hacc hsub, if_neg h1, if_pos h2]
  rfl

theorem failure_is_logged_as_error_witness :
    (logLines (runHandler (handlerEnv (.ok 7) (.returned (some .deadlineExceeded))) demoServer
        demoRequest).2.trace =
      [.printf "ERROR: websocket subscriber failed: %s" [some .deadlineExceeded]]) ∧
    (logLines (runHandler (handlerEnv (.ok 7)
        (.returned (some (.wrap "failed to read" (.closeError 1011 "boom"))))) demoServer
        demoRequest).2.trace =
      [.printf "ERROR: websocket subscriber failed: %s"
        [some (.wrap "failed to read" (.closeError 1011 "boom"))]]) :=
  ⟨failure_is_logged_as_error (handlerEnv (.ok 7) (.returned (some .deadlineExceeded)))
      demoServer demoRequest 7 (some .deadlineExceeded) rfl rfl (by simp) (by decide)
      (by decide) (by decide),
    failure_is_logged_as_error
      (handlerEnv (.ok 7) (.returned (some (.wrap "failed to read" (.closeError 1011 "boom")))))
      demoServer demoRequest 7 (some (.wrap "failed to read" (.closeError 1011 "boom")))
      rfl rfl (by simp) (by decide) (by decide) (by decide)⟩

/-- C6: when `Subscribe` returns nil the handler logs nothing; nil is not
`context.Canceled` and its close status (`-1`) is neither normal closure nor
going away; and for every value `Subscribe` can return exactly one of the
three cases holds: it is nil, it meets the informational test, or it is
non-nil and fails that test. -/
theorem nil_is_not_logged (env : Env) (s : Server) (r : Request) (conn : Conn)
    (hacc : env.acceptResult = .ok conn) (hsub : env.subscribeResult = .returned none) :
    logLines (runHandler env s r).2.trace = [] ∧
    errorsIsCanceled none = false ∧
    CloseStatus none ≠ StatusNormalClosure ∧
    CloseStatus none ≠ StatusGoingAway ∧
    ∀ err : GoError,
      (err = none ∨
        (errorsIsCanceled err = true ∨ CloseStatus err = StatusNormalClosure ∨
          CloseStatus err = StatusGoingAway) ∨
        (err ≠ none ∧ ¬ (errorsIsCanceled err = true ∨ CloseStatus err = StatusNormalClosure ∨
          CloseStatus err = StatusGoingAway))) ∧
      ¬ (err = none ∧
        (errorsIsCanceled err = true ∨ CloseStatus err = StatusNormalClosure ∨
          CloseStatus err = StatusGoingAway)) ∧
      ¬ (err = none ∧ err ≠ none) ∧
      ¬ ((errorsIsCanceled err = true ∨ CloseStatus err = StatusNormalClosure ∨
          CloseStatus err = StatusGoingAway) ∧
        (err ≠ none ∧ ¬ (errorsIsCanceled err = true ∨ CloseStatus err = StatusNormalClosure ∨
          CloseStatus err = StatusGoingAway))) := by
  have hquiet : ¬ (errorsIsCanceled none = true ∨ CloseStatus none = StatusNormalClosure ∨
      CloseStatus none = StatusGoingAway) := by
    rintro (h | h | h)
    · cases h
    · revert h; decide
    · revert h; decide
  refine ⟨?_, rfl, by decide, by decide, ?_⟩
  · rw [handler_returned env s r conn none hacc hsub]
    rfl
  · intro err
    refine ⟨?_, ?_, ?_, ?_⟩
    · by_cases hn : err = none
      · exact Or.inl hn
      · by_cases hi : (errorsIsCanceled err = true ∨ CloseStatus err = StatusNormalClosure ∨
            CloseStatus err = StatusGoingAway)
        · exact Or.inr (Or.inl hi)
        · exact Or.inr (Or.inr ⟨hn, hi⟩)
    · rintro ⟨hn, hi⟩
      subst hn
      exact hquiet hi
    · rintro ⟨hn, hne⟩
      exact hne hn
    · rintro ⟨hi, _, hni⟩
      exact hni hi

theorem nil_is_not_logged_witness :
    (handlerEnv (.ok 7) (.returned none)).acceptResult = .ok 7 ∧
    (handlerEnv (.ok 7) (.returned none)).subscribeResult = .returned none ∧
    logLines (runHandler (handlerEnv (.ok 7) (.returned none)) demoServer
      demoRequest).2.trace = [] :=
  ⟨rfl, rfl,
    (nil_is_not_logged (handlerEnv (.ok 7) (.returned none)) demoServer demoRequest 7
      rfl rfl).1⟩

/-- C7: the handler calls `Subscribe` exactly once when `Accept` succeeds, with
the request's own context and the connection `Accept` returned, and not at all
when `Accept` fails; in that case it logs the one line
`websocket upgrade failed: <err>`, closes no connection, and returns. -/
theorem subscribe_once_per_accepted_conn (env : Env) (s : Server) (r : Request) :
    (∀ conn, env.acceptResult = .ok conn →
      (runHandler env s r).2.trace.filter Event.isSubscribe = [.subscribe r.ctx conn]) ∧
    (∀ e, env.acceptResult = .error e →
      (runHandler env s r).2.trace.filter Event.isSubscribe = [] ∧
      logLines (runHandler env s r).2.trace =
        [.printf "websocket upgrade failed: %s" [some e]] ∧
      (runHandler env s r).2.trace.filter Event.isConnClose = [] ∧
      (runHandler env s r).1 = .returned ()) := by
  constructor
  · intro conn hacc
    obtain ⟨before, htr, _, hsub⟩ := handler_accepted_shape env s r conn hacc
    rw [htr, List.filter_append, hsub]
    rfl
  · intro e hacc
    rw [handler_rejected env s r e hacc]
    exact ⟨by rfl, by rfl, by rfl, rfl⟩

theorem subscribe_once_per_accepted_conn_witness :
    (handlerEnv (.error (.plain "missing Upgrade header")) (.returned none)).acceptResult =
      .error (.plain "missing Upgrade header") ∧
    (runHandler (handlerEnv (.error (.plain "missing Upgrade header")) (.returned none))
      demoServer demoRequest).2.trace.filter Event.isSubscribe = [] ∧
    (runHandler (handlerEnv (.ok 7) (.returned none)) demoServer
      demoRequest).2.trace.filter Event.isSubscribe = [.subscribe demoRequest.ctx 7] :=
  ⟨rfl,
    ((subscribe_once_per_accepted_conn
      (handlerEnv (.error (.plain "missing Upgrade header")) (.returned none))
      demoServer demoRequest).2 (.plain "missing Upgrade header") rfl).1,
    (subscribe_once_per_accepted_conn (handlerEnv (.ok 7) (.returned none)) demoServer
      demoRequest).1 7 rfl⟩


end NolaTransit
